import Mathlib

/-!
Verification development for the agentic-playground repository.

The embedding covers:
  - the workflow automation engine of
    mcp-servers/advanced-examples/task_automation.py
    (TaskAutomationServer: create_workflow, execute_workflow, the step
    executor, condition checks, template substitution, the variable store,
    and call_tool);
  - the JSON-RPC request dispatcher of
    mcp-servers/production-ready/mcp_server_template.py
    (ProductionMCPServer.handle_request and its method handlers);
  - the AgentCore entrypoint of bedrock-agentcore-demo/my_agent.py.

Python dict and JSON values are modelled by the inductive type Value
below; Python dicts are association lists that preserve insertion order,
exactly as CPython dicts do.  sqlite3 tables keyed by a PRIMARY KEY are
modelled as association lists as well; json.dumps/json.loads at the
sqlite boundary is the identity on JSON values and is therefore elided.
Exceptions are modelled with Except String; the carried string stands for
str(e) of the raised exception.
-/

set_option autoImplicit false

namespace AgenticPlayground

/-- JSON values as produced by json.loads, extended with null for
Python None.  Floating point numbers do not occur in any claim and are
omitted from the embedding. -/
inductive Value where
  | null : Value
  | bool : Bool → Value
  | int : Int → Value
  | str : String → Value
  | arr : List Value → Value
  | obj : List (String × Value) → Value

/-- A Python dict with string keys, in insertion order. -/
abbrev Dict := List (String × Value)

/-- Lookup in an association list: d.get(k) / d[k] when the key is
present. -/
def assocGet {α : Type} (d : List (String × α)) (k : String) : Option α :=
  match d with
  | [] => none
  | (k₂, v) :: rest => if k₂ = k then some v else assocGet rest k

/-- Key membership: `k in d` for a Python dict. -/
def assocHasKey {α : Type} (d : List (String × α)) (k : String) : Bool :=
  (assocGet d k).isSome

/-- `d[k] = v` for a Python dict (also INSERT OR REPLACE for a sqlite
table keyed by its primary key): replace the binding in place when the
key exists, append otherwise. -/
def assocInsert {α : Type} (d : List (String × α)) (k : String) (v : α) :
    List (String × α) :=
  match d with
  | [] => [(k, v)]
  | (k₂, v₂) :: rest =>
      if k₂ = k then (k, v) :: rest else (k₂, v₂) :: assocInsert rest k v

/-- Field access on a Value that is an object. -/
def objGet (v : Value) (k : String) : Option Value :=
  match v with
  | .obj fields => assocGet fields k
  | _ => none

/-! ### UTF-8 and MD5

create_workflow derives workflow ids as
hashlib.md5(name.encode()).hexdigest(); execute_workflow derives
execution ids the same way.  hashlib is an external library, so MD5 is
reproduced here from its published definition (RFC 1321) and checked
against the RFC test vectors below. -/

/-- UTF-8 encoding of one character (str.encode()). -/
def utf8EncodeChar (c : Char) : List Nat :=
  let n := c.toNat
  if n < 128 then [n]
  else if n < 2048 then [192 + n / 64, 128 + n % 64]
  else if n < 65536 then
    [224 + n / 4096, 128 + (n / 64) % 64, 128 + n % 64]
  else
    [240 + n / 262144, 128 + (n / 4096) % 64, 128 + (n / 64) % 64,
     128 + n % 64]

/-- UTF-8 encoding of a string as a byte list. -/
def utf8Encode (s : String) : List Nat :=
  (s.data.map utf8EncodeChar).flatten

/-- 2 ^ 32, the modulus of all MD5 word arithmetic. -/
def u32 : Nat := 4294967296

/-- Rotate a 32-bit word left by s bits. -/
def rotl32 (x s : Nat) : Nat :=
  (x * 2 ^ s) % u32 + x % u32 / 2 ^ (32 - s)

/-- The MD5 round functions F, G, H, I. -/
def md5F (b c d : Nat) : Nat := (b &&& c) ||| ((4294967295 ^^^ b) &&& d)

def md5G (b c d : Nat) : Nat := (d &&& b) ||| ((4294967295 ^^^ d) &&& c)

def md5H (b c d : Nat) : Nat := b ^^^ c ^^^ d

def md5I (b c d : Nat) : Nat := c ^^^ (b ||| (4294967295 ^^^ d))

/-- The 64 per-round shift amounts. -/
def md5S : List Nat :=
  [7, 12, 17, 22, 7, 12, 17, 22, 7, 12, 17, 22, 7, 12, 17, 22,
   5, 9, 14, 20, 5, 9, 14, 20, 5, 9, 14, 20, 5, 9, 14, 20,
   4, 11, 16, 23, 4, 11, 16, 23, 4, 11, 16, 23, 4, 11, 16, 23,
   6, 10, 15, 21, 6, 10, 15, 21, 6, 10, 15, 21, 6, 10, 15, 21]

/-- The 64 sine-derived constants K of RFC 1321. -/
def md5K : List Nat :=
  [0xd76aa478, 0xe8c7b756, 0x242070db, 0xc1bdceee,
   0xf57c0faf, 0x4787c62a, 0xa8304613, 0xfd469501,
   0x698098d8, 0x8b44f7af, 0xffff5bb1, 0x895cd7be,
   0x6b901122, 0xfd987193, 0xa679438e, 0x49b40821,
   0xf61e2562, 0xc040b340, 0x265e5a51, 0xe9b6c7aa,
   0xd62f105d, 0x02441453, 0xd8a1e681, 0xe7d3fbc8,
   0x21e1cde6, 0xc33707d6, 0xf4d50d87, 0x455a14ed,
   0xa9e3e905, 0xfcefa3f8, 0x676f02d9, 0x8d2a4c8a,
   0xfffa3942, 0x8771f681, 0x6d9d6122, 0xfde5380c,
   0xa4beea44, 0x4bdecfa9, 0xf6bb4b60, 0xbebfbc70,
   0x289b7ec6, 0xeaa127fa, 0xd4ef3085, 0x04881d05,
   0xd9d4d039, 0xe6db99e5, 0x1fa27cf8, 0xc4ac5665,
   0xf4292244, 0x432aff97, 0xab9423a7, 0xfc93a039,
   0x655b59c3, 0x8f0ccc92, 0xffeff47d, 0x85845dd1,
   0x6fa87e4f, 0xfe2ce6e0, 0xa3014314, 0x4e0811a1,
   0xf7537e82, 0xbd3af235, 0x2ad7d2bb, 0xeb86d391]

/-- One MD5 step: round i acting on the state (a, b, c, d) with the
16 message words M of the current block. -/
def md5Step (M : List Nat) (st : Nat × Nat × Nat × Nat) (i : Nat) :
    Nat × Nat × Nat × Nat :=
  let a := st.1
  let b := st.2.1
  let c := st.2.2.1
  let d := st.2.2.2
  let fg : Nat × Nat :=
    if i < 16 then (md5F b c d, i)
    else if i < 32 then (md5G b c d, (5 * i + 1) % 16)
    else if i < 48 then (md5H b c d, (3 * i + 5) % 16)
    else (md5I b c d, (7 * i) % 16)
  let f := (fg.1 + a + md5K.getD i 0 + M.getD fg.2 0) % u32
  (d, (b + rotl32 f (md5S.getD i 0)) % u32, b, c)

/-- Process one 512-bit block. -/
def md5Block (st : Nat × Nat × Nat × Nat) (M : List Nat) :
    Nat × Nat × Nat × Nat :=
  let r := (List.range 64).foldl (md5Step M) st
  ((st.1 + r.1) % u32, (st.2.1 + r.2.1) % u32,
   (st.2.2.1 + r.2.2.1) % u32, (st.2.2.2 + r.2.2.2) % u32)

/-- The count lowest little-endian bytes of n. -/
def leBytes (n count : Nat) : List Nat :=
  match count with
  | 0 => []
  | c + 1 => n % 256 :: leBytes (n / 256) c

/-- Group little-endian bytes into 32-bit words. -/
def bytesToWordsLE : List Nat → List Nat
  | b₀ :: b₁ :: b₂ :: b₃ :: rest =>
      (b₀ + 256 * b₁ + 65536 * b₂ + 16777216 * b₃) :: bytesToWordsLE rest
  | _ => []

/-- Split a byte list into 64-byte chunks (fuelled for structural
termination; the fuel is always sufficient). -/
def chunk64Fuel : Nat → List Nat → List (List Nat)
  | 0, _ => []
  | _, [] => []
  | fuel + 1, bs => bs.take 64 :: chunk64Fuel fuel (bs.drop 64)

/-- Split a byte list into 64-byte chunks. -/
def chunksOf64 (bs : List Nat) : List (List Nat) :=
  chunk64Fuel bs.length bs

/-- MD5 padding: append 0x80, zero bytes up to 56 mod 64, then the
64-bit little-endian bit length. -/
def md5Pad (msg : List Nat) : List Nat :=
  msg ++ [128] ++ List.replicate ((119 - msg.length % 64) % 64) 0 ++
    leBytes (msg.length * 8) 8

/-- The 16-byte MD5 digest of a byte list. -/
def md5Digest (msg : List Nat) : List Nat :=
  let blocks := (chunksOf64 (md5Pad msg)).map bytesToWordsLE
  let st := blocks.foldl md5Block
    (0x67452301, 0xefcdab89, 0x98badcfe, 0x10325476)
  leBytes st.1 4 ++ leBytes st.2.1 4 ++ leBytes st.2.2.1 4 ++
    leBytes st.2.2.2 4

/-- Lowercase hexadecimal digit. -/
def hexDigit (n : Nat) : Char :=
  "0123456789abcdef".data.getD n "0".data.head!

/-- Two lowercase hex characters for one byte. -/
def byteToHex (b : Nat) : List Char := [hexDigit (b / 16), hexDigit (b % 16)]

/-- hexdigest of a byte list. -/
def md5HexBytes (msg : List Nat) : String :=
  { data := (md5Digest msg).foldr (fun b acc => byteToHex b ++ acc) [] }

/-- hashlib.md5(s.encode()).hexdigest(). -/
def md5Hex (s : String) : String := md5HexBytes (utf8Encode s)

/-- RFC 1321 test vector for the empty message. -/
theorem md5Hex_empty : md5Hex "" = "d41d8cd98f00b204e9800998ecf8427e" := by
  rfl

/-- RFC 1321 test vector for "abc". -/
theorem md5Hex_abc : md5Hex "abc" = "900150983cd24fb0d6963f7d28e17f72" := by
  rfl

/-! ### Python value semantics used by the workflow engine -/

mutual

/-- Python repr() of a value, as used for container elements of str().
Strings are rendered double-quoted without escapes; CPython would
prefer single quotes and applies escapes, a formatting detail no claim
observes. -/
def pyRepr : Value → String
  | .null => "None"
  | .bool true => "True"
  | .bool false => "False"
  | .int n => toString n
  | .str s => "\x22" ++ s ++ "\x22"
  | .arr xs => "[" ++ ", ".intercalate (pyReprList xs) ++ "]"
  | .obj fs => "\x7b" ++ ", ".intercalate (pyReprFields fs) ++ "\x7d"

/-- repr() of the elements of a list. -/
def pyReprList : List Value → List String
  | [] => []
  | v :: vs => pyRepr v :: pyReprList vs

/-- repr() of the fields of a dict. -/
def pyReprFields : List (String × Value) → List String
  | [] => []
  | (k, v) :: fs => ("\x22" ++ k ++ "\x22: " ++ pyRepr v) :: pyReprFields fs

end

/-- Python str() of a value.  Scalars match CPython exactly; containers
render their elements with repr(). -/
def pyStr (v : Value) : String :=
  match v with
  | .str s => s
  | other => pyRepr other

/-- The Python type name of a value, as it appears in TypeError
messages. -/
def pyTypeName (v : Value) : String :=
  match v with
  | .null => "NoneType"
  | .bool _ => "bool"
  | .int _ => "int"
  | .str _ => "str"
  | .arr _ => "list"
  | .obj _ => "dict"

/-- A value viewed as a Python number when numeric comparison applies
(bool is a subtype of int in Python: True is 1, False is 0). -/
def pyNum (v : Value) : Option Int :=
  match v with
  | .int n => some n
  | .bool b => some (if b then 1 else 0)
  | _ => none

mutual

/-- Python equality on JSON values.  bool/int cross comparison follows
CPython (True == 1).  Dict equality is compared field-by-field in
order; CPython ignores insertion order, but no workflow condition in
this repository compares dicts. -/
def pyEq : Value → Value → Bool
  | .null, .null => true
  | .str a, .str b => a == b
  | .arr a, .arr b => pyEqList a b
  | .obj a, .obj b => pyEqFields a b
  | a, b =>
      match pyNum a, pyNum b with
      | some x, some y => x == y
      | _, _ => false

/-- Elementwise Python equality of lists. -/
def pyEqList : List Value → List Value → Bool
  | [], [] => true
  | a :: as₂, b :: bs₂ => pyEq a b && pyEqList as₂ bs₂
  | _, _ => false

/-- Fieldwise Python equality of objects. -/
def pyEqFields : List (String × Value) → List (String × Value) → Bool
  | [], [] => true
  | (k₁, v₁) :: f₁, (k₂, v₂) :: f₂ => k₁ == k₂ && pyEq v₁ v₂ && pyEqFields f₁ f₂
  | _, _ => false

end

/-- Python a < b on JSON values.  Numbers (including bool) compare
numerically, strings lexicographically by code point; any other pair
raises TypeError.  (CPython also orders lists lexicographically; no
workflow in this repository compares lists, so that case raises
here.) -/
def pyLt (a b : Value) : Except String Bool :=
  match pyNum a, pyNum b with
  | some x, some y => .ok (decide (x < y))
  | _, _ =>
      match a, b with
      | .str x, .str y => .ok (decide (x < y))
      | _, _ =>
          .error ("TypeError: comparison not supported between instances of " ++
            pyTypeName a ++ " and " ++ pyTypeName b)

/-- Is needle a contiguous sublist of the second list? -/
def listIsInfix (needle : List Char) : List Char → Bool
  | [] => needle.isEmpty
  | c :: rest => needle.isPrefixOf (c :: rest) || listIsInfix needle rest

/-- Python `needle in hay` on strings: substring containment. -/
def strContains (hay needle : String) : Bool :=
  listIsInfix needle.data hay.data

/-- startswith on strings. -/
def pyStartswith (s pre : String) : Bool :=
  pre.data.isPrefixOf s.data

/-- endswith on strings. -/
def pyEndswith (s suf : String) : Bool :=
  suf.data.isSuffixOf s.data

/-- The slice s[2:-2]. -/
def pySlice2m2 (s : String) : String :=
  { data := (s.data.drop 2).take (s.data.length - 4) }

/-- str(e) of a Python KeyError raised by d[k] on a missing key.
CPython renders the missing key in quotes; the message is otherwise
the key itself. -/
def keyError (k : String) : String := "KeyError: " ++ k

/-! ### TaskAutomationServer (task_automation.py)

A workflow step is the dict
  \x7b"action": ..., "params": ..., "output_var": ..., "condition": ...\x7d.
The "action" field is read with step["action"] (a missing key raises
KeyError); the others are read with .get.  Non-string "action" or
"output_var" values never occur in this repository and behave like
unknown strings, so those fields are typed below. -/

structure Step where
  action : Option String
  params : Dict
  output_var : Option String
  condition : Option Dict

/-- The variables sqlite table: key TEXT PRIMARY KEY mapped to the
stored JSON value (json.dumps on write, json.loads on read, an
identity round trip on JSON values). -/
abbrev VarStore := List (String × Value)

/-- _replace_variables applied to one parameter value: a string that
starts with two opening braces and ends with two closing braces is
looked up (by its middle, value[2:-2]) in the context, defaulting to
the original value; everything else passes through. -/
def substituteValue (context : Dict) (v : Value) : Value :=
  match v with
  | .str s =>
      if pyStartswith s "\x7b\x7b" && pyEndswith s "\x7d\x7d" then
        (assocGet context (pySlice2m2 s)).getD v
      else v
  | other => other

/-- TaskAutomationServer._replace_variables. -/
def replaceVariables (params context : Dict) : Dict :=
  params.map fun kv => (kv.1, substituteValue context kv.2)

/-- TaskAutomationServer._http_request (simulated). -/
def httpRequest (params : Dict) : Value :=
  .obj [("status", .int 200),
        ("url", (assocGet params "url").getD .null),
        ("method", (assocGet params "method").getD (.str "GET")),
        ("simulated", .bool true)]

/-- TaskAutomationServer._set_variable: INSERT OR REPLACE the key in
the variables table.  params["key"] and params["value"] raise KeyError
when missing; a non-string key is rejected at the sqlite binding (the
schema declares key TEXT and every caller passes strings). -/
def setVariable (store : VarStore) (params : Dict) :
    Except String (VarStore × Value) :=
  match assocGet params "key" with
  | none => .error (keyError "key")
  | some keyV =>
      match assocGet params "value" with
      | none => .error (keyError "value")
      | some v =>
          match keyV with
          | .str k =>
              .ok (assocInsert store k v,
                   .obj [("key", .str k), ("value", v)])
          | other =>
              .error ("TypeError: unsupported key type " ++ pyTypeName other)

/-- TaskAutomationServer._get_variable: SELECT by key; a missing row
yields Python None. -/
def getVariable (store : VarStore) (params : Dict) : Except String Value :=
  match assocGet params "key" with
  | none => .error (keyError "key")
  | some (.str k) => .ok ((assocGet store k).getD .null)
  | some other =>
      .error ("TypeError: unsupported key type " ++ pyTypeName other)

/-- TaskAutomationServer._delay (simulated). -/
def delayStep (params : Dict) : Value :=
  .obj [("delayed", (assocGet params "seconds").getD (.int 1))]

/-- TaskAutomationServer._log (the print side effect is not part of the
returned value). -/
def logStep (params : Dict) : Value :=
  .obj [("logged", (assocGet params "message").getD .null)]

/-- The dispatch of TaskAutomationServer._execute_step after the action
has been extracted and the parameters substituted: five recognised
actions, otherwise an error dictionary (not an exception). -/
def executeStepAction (store : VarStore) (action : String) (params : Dict) :
    Except String (VarStore × Value) :=
  if action = "http_request" then .ok (store, httpRequest params)
  else if action = "set_variable" then setVariable store params
  else if action = "get_variable" then
    (getVariable store params).map fun v => (store, v)
  else if action = "delay" then .ok (store, delayStep params)
  else if action = "log" then .ok (store, logStep params)
  else .ok (store, .obj [("error", .str ("Unknown action: " ++ action))])

/-- TaskAutomationServer._execute_step. -/
def executeStep (store : VarStore) (step : Step) (context : Dict) :
    Except String (VarStore × Value) :=
  match step.action with
  | none => .error (keyError "action")
  | some action =>
      executeStepAction store action (replaceVariables step.params context)

/-- Is a condition operator one of the five recognised ones?  Any other
operator value (including a missing one) falls through to True in
_check_condition. -/
def recognizedOp (op : Option Value) : Bool :=
  match op with
  | some (.str "equals") => true
  | some (.str "not_equals") => true
  | some (.str "greater_than") => true
  | some (.str "less_than") => true
  | some (.str "contains") => true
  | _ => false

/-- TaskAutomationServer._check_condition.  A missing condition (None)
and an empty condition dict are both falsy in Python and yield True.
A missing or non-string "variable" is never a key of the context, so
`var not in context` yields False.  Comparison operators follow
Python semantics and may raise TypeError. -/
def checkCondition (condition : Option Dict) (context : Dict) :
    Except String Bool :=
  match condition with
  | none => .ok true
  | some c =>
      if c.isEmpty then .ok true
      else
        let value := (assocGet c "value").getD .null
        match assocGet c "variable" with
        | some (.str v) =>
            match assocGet context v with
            | none => .ok false
            | some ctxValue =>
                match assocGet c "operator" with
                | some (.str "equals") => .ok (pyEq ctxValue value)
                | some (.str "not_equals") => .ok (!pyEq ctxValue value)
                | some (.str "greater_than") => pyLt value ctxValue
                | some (.str "less_than") => pyLt ctxValue value
                | some (.str "contains") =>
                    match value with
                    | .str needle => .ok (strContains (pyStr ctxValue) needle)
                    | other =>
                        .error ("TypeError: in requires str as left operand, not " ++
                          pyTypeName other)
                | _ => .ok true
        | _ => .ok false

/-- The outcome of the step loop of execute_workflow: either every
remaining step ran (or a false condition broke out of the loop), or a
step raised; either way the recorded result entries are carried. -/
inductive RunOutcome where
  | completed : List Value → RunOutcome
  | failed : List Value → String → RunOutcome

/-- The result entries recorded by the loop. -/
def RunOutcome.results : RunOutcome → List Value
  | .completed rs => rs
  | .failed rs _ => rs

/-- The result entry appended for step number idx (0-based position;
the recorded "step" field is idx + 1). -/
def stepEntry (idx : Nat) (action : String) (result : Value) : Value :=
  .obj [("step", .int ((idx : Int) + 1)), ("action", .str action),
        ("result", result)]

/-- The context update after a step: context[step["output_var"]] =
step_result when the step declares an output variable. -/
def updateContext (context : Dict) (step : Step) (result : Value) : Dict :=
  match step.output_var with
  | some ov => assocInsert context ov result
  | none => context

/-- The for-loop body of execute_workflow: run each step in order,
append its result entry, update the context, then check the condition;
a false condition breaks out of the loop, an exception aborts with the
entries recorded so far. -/
def runSteps (store : VarStore) (context : Dict) (steps : List Step)
    (idx : Nat) : VarStore × Dict × RunOutcome :=
  match steps with
  | [] => (store, context, .completed [])
  | step :: rest =>
      match step.action with
      | none => (store, context, .failed [] (keyError "action"))
      | some act =>
          match executeStepAction store act
              (replaceVariables step.params context) with
          | .error e => (store, context, .failed [] e)
          | .ok (store₁, stepResult) =>
              let entry := stepEntry idx act stepResult
              let context₁ := updateContext context step stepResult
              match checkCondition step.condition context₁ with
              | .error e => (store₁, context₁, .failed [entry] e)
              | .ok false => (store₁, context₁, .completed [entry])
              | .ok true =>
                  match runSteps store₁ context₁ rest (idx + 1) with
                  | (store₂, context₂, .completed rs) =>
                      (store₂, context₂, .completed (entry :: rs))
                  | (store₂, context₂, .failed rs e) =>
                      (store₂, context₂, .failed (entry :: rs) e)

/-- One row of the workflows sqlite table. -/
structure Workflow where
  name : String
  description : String
  trigger_type : String
  trigger_config : Value
  steps : List Step
  enabled : Bool
  created_at : String

/-- One row of the executions sqlite table. -/
structure ExecutionRow where
  workflow_id : String
  status : String
  started_at : String
  completed_at : Option String
  result : Option (List Value)
  error : Option String

/-- The three sqlite tables of TaskAutomationServer, each keyed by its
primary key. -/
structure AutomationDB where
  workflows : List (String × Workflow)
  executions : List (String × ExecutionRow)
  vars : VarStore

/-- The structured arguments of create_workflow.  args["name"],
args["trigger_type"] and args["steps"] are required (a missing one
raises KeyError before any write); description and trigger_config
default via .get. -/
structure CreateArgs where
  name : String
  description : Option String
  trigger_type : String
  trigger_config : Option Value
  steps : List Step

/-- TaskAutomationServer.create_workflow: the workflow id is the MD5
hex digest of the name; the row is written with INSERT OR REPLACE and
enabled = 1.  nowStr stands for datetime.now().isoformat(). -/
def createWorkflow (db : AutomationDB) (nowStr : String) (args : CreateArgs) :
    AutomationDB × Value :=
  let workflow_id := md5Hex args.name
  let wf : Workflow :=
    { name := args.name
      description := args.description.getD ""
      trigger_type := args.trigger_type
      trigger_config := args.trigger_config.getD (.obj [])
      steps := args.steps
      enabled := true
      created_at := nowStr }
  ({ db with workflows := assocInsert db.workflows workflow_id wf },
   .obj [("workflow_id", .str workflow_id), ("name", .str args.name),
         ("steps", .int args.steps.length),
         ("message", .str "Workflow created successfully")])

/-- The SELECT of execute_workflow: the row with the given id, provided
it is enabled (WHERE id = ? AND enabled = 1). -/
def wfLookup (db : AutomationDB) (workflow_id : String) : Option Workflow :=
  match assocGet db.workflows workflow_id with
  | none => none
  | some wf => if wf.enabled then some wf else none

/-- TaskAutomationServer.execute_workflow.  nowRepr stands for the
f-string rendering of datetime.now() inside the execution-id hash;
startedAt and completedAt stand for the isoformat timestamps.  The
whole body is total: the try block of the source catches every
exception of the step loop, so no exception escapes. -/
def executeWorkflow (db : AutomationDB) (nowRepr startedAt completedAt : String)
    (workflow_id : String) (context : Dict) : AutomationDB × Value :=
  match wfLookup db workflow_id with
  | none => (db, .obj [("error", .str "Workflow not found or disabled")])
  | some wf =>
      let execId := md5Hex (workflow_id ++ nowRepr)
      let running : ExecutionRow :=
        { workflow_id := workflow_id, status := "running",
          started_at := startedAt, completed_at := none,
          result := none, error := none }
      let db₁ := { db with executions := assocInsert db.executions execId running }
      match runSteps db₁.vars context wf.steps 0 with
      | (store₂, _, .completed results) =>
          let row : ExecutionRow :=
            { running with status := "completed",
                           completed_at := some completedAt,
                           result := some results }
          ({ db₁ with vars := store₂,
                      executions := assocInsert db₁.executions execId row },
           .obj [("execution_id", .str execId), ("workflow", .str wf.name),
                 ("status", .str "completed"),
                 ("steps_executed", .int results.length),
                 ("results", .arr results)])
      | (store₂, _, .failed results e) =>
          let row : ExecutionRow :=
            { running with status := "failed",
                           completed_at := some completedAt,
                           error := some e }
          ({ db₁ with vars := store₂,
                      executions := assocInsert db₁.executions execId row },
           .obj [("execution_id", .str execId), ("status", .str "failed"),
                 ("error", .str e),
                 ("steps_executed", .int results.length)])

/-- TaskAutomationServer.call_tool: an unregistered tool name yields an
error dictionary instead of an exception; a registered one runs its
handler on the arguments. -/
def callTool (tools : List (String × (Dict → Value))) (name : String)
    (arguments : Dict) : Value :=
  match assocGet tools name with
  | none => .obj [("error", .str ("Unknown tool: " ++ name))]
  | some handler => handler arguments

/-! ### ProductionMCPServer (mcp_server_template.py)

Registered tool and resource handlers are external callables; they are
modelled as functions into Except String, the error carrying str(e) of
a raised exception.  The request is modelled with its method and id as
optional JSON values (request.get) and its params as a dict
(request.get("params", \x7b\x7d); every caller passes a JSON object). -/

structure McpTool where
  description : String
  inputSchema : Value
  handler : Value → Except String Value

structure McpResource where
  name : String
  description : String
  mimeType : String
  handler : Except String String

structure McpServer where
  name : String
  version : String
  tools : List (String × McpTool)
  resources : List (String × McpResource)
  prompts : List (String × Value)
  request_count : Nat
  error_count : Nat

structure RpcRequest where
  method : Option Value
  params : Dict
  id : Option Value

/-- A compact JSON rendering of a value, standing for
json.dumps(result, indent := 2) in handle_tools_call; no claim observes
the serialised text, so the indentation layout is not reproduced. -/
def jsonDumps : Value → String :=
  pyReprGo
where
  pyReprGo : Value → String
  | .null => "null"
  | .bool true => "true"
  | .bool false => "false"
  | .int n => toString n
  | .str s => "\x22" ++ s ++ "\x22"
  | .arr xs => "[" ++ ", ".intercalate (jsonDumpsList xs) ++ "]"
  | .obj fs => "\x7b" ++ ", ".intercalate (jsonDumpsFields fs) ++ "\x7d"
  jsonDumpsList : List Value → List String
  | [] => []
  | v :: vs => pyReprGo v :: jsonDumpsList vs
  jsonDumpsFields : List (String × Value) → List String
  | [] => []
  | (k, v) :: fs => ("\x22" ++ k ++ "\x22: " ++ pyReprGo v) :: jsonDumpsFields fs

/-- ProductionMCPServer.handle_initialize. -/
def handleInitialize (s : McpServer) : Value :=
  .obj [("protocolVersion", .str "2024-11-05"),
        ("serverInfo", .obj [("name", .str s.name),
                             ("version", .str s.version)]),
        ("capabilities", .obj
          [("tools",
            if s.tools.isEmpty then .obj []
            else .obj [("listChanged", .bool true)]),
           ("resources",
            if s.resources.isEmpty then .obj []
            else .obj [("subscribe", .bool true),
                       ("listChanged", .bool true)]),
           ("prompts",
            if s.prompts.isEmpty then .obj []
            else .obj [("listChanged", .bool true)]),
           ("logging", .obj [])])]

/-- ProductionMCPServer.handle_tools_list. -/
def handleToolsList (s : McpServer) : Value :=
  .obj [("tools", .arr (s.tools.map fun kv =>
    .obj [("name", .str kv.1),
          ("description", .str kv.2.description),
          ("inputSchema", kv.2.inputSchema)]))]

/-- ProductionMCPServer.handle_tools_call: an unknown (or missing or
non-string) tool name raises ValueError and bumps the error counter; a
handler exception is re-raised after bumping the counter; a successful
handler result is serialised into a text content block. -/
def handleToolsCall (s : McpServer) (params : Dict) :
    McpServer × Except String Value :=
  let toolName := assocGet params "name"
  let arguments := (assocGet params "arguments").getD (.obj [])
  let lookup :=
    match toolName with
    | some (.str n) => assocGet s.tools n
    | _ => none
  match lookup with
  | none =>
      ({ s with error_count := s.error_count + 1 },
       .error ("Unknown tool: " ++ pyStr (toolName.getD .null)))
  | some tool =>
      match tool.handler arguments with
      | .error e => ({ s with error_count := s.error_count + 1 }, .error e)
      | .ok result =>
          (s, .ok (.obj [("content", .arr
            [.obj [("type", .str "text"),
                   ("text", .str (jsonDumps result))]])]))

/-- ProductionMCPServer.handle_resources_list. -/
def handleResourcesList (s : McpServer) : Value :=
  .obj [("resources", .arr (s.resources.map fun kv =>
    .obj [("uri", .str kv.1),
          ("name", .str kv.2.name),
          ("description", .str kv.2.description),
          ("mimeType", .str kv.2.mimeType)]))]

/-- ProductionMCPServer.handle_resources_read. -/
def handleResourcesRead (s : McpServer) (params : Dict) :
    McpServer × Except String Value :=
  let uri := assocGet params "uri"
  let lookup :=
    match uri with
    | some (.str u) => assocGet s.resources u
    | _ => none
  match lookup with
  | none =>
      ({ s with error_count := s.error_count + 1 },
       .error ("Unknown resource: " ++ pyStr (uri.getD .null)))
  | some res =>
      match res.handler with
      | .error e => ({ s with error_count := s.error_count + 1 }, .error e)
      | .ok content =>
          (s, .ok (.obj [("contents", .arr
            [.obj [("uri", .str (pyStr (uri.getD .null))),
                   ("mimeType", .str res.mimeType),
                   ("text", .str content)]])]))

/-- The method dispatch inside the try block of handle_request: six
recognised methods (the five MCP methods plus ping); anything else
raises ValueError("Unknown method: ..."). -/
def dispatchMethod (s : McpServer) (req : RpcRequest) :
    McpServer × Except String Value :=
  match req.method with
  | some (.str "initialize") => (s, .ok (handleInitialize s))
  | some (.str "tools/list") => (s, .ok (handleToolsList s))
  | some (.str "tools/call") => handleToolsCall s req.params
  | some (.str "resources/list") => (s, .ok (handleResourcesList s))
  | some (.str "resources/read") => handleResourcesRead s req.params
  | some (.str "ping") => (s, .ok (.obj []))
  | m => (s, .error ("Unknown method: " ++ pyStr (m.getD .null)))

/-- ProductionMCPServer.handle_request: bump the request counter, run
the dispatch, and wrap the outcome as a JSON-RPC response — a result
object on success, an error object with code -32603 on any
exception. -/
def handleRequest (s : McpServer) (req : RpcRequest) : McpServer × Value :=
  let s₁ := { s with request_count := s.request_count + 1 }
  match dispatchMethod s₁ req with
  | (s₂, .ok result) =>
      (s₂, .obj [("jsonrpc", .str "2.0"), ("id", req.id.getD .null),
                 ("result", result)])
  | (s₂, .error e) =>
      (s₂, .obj [("jsonrpc", .str "2.0"), ("id", req.id.getD .null),
                 ("error", .obj [("code", .int (-32603)),
                                 ("message", .str e)])])

/-! ### my_agent.py -/

/-- The default prompt used when the payload carries none. -/
def defaultPrompt : String := "Hello! How can I help you today?"

/-- The invoke entrypoint of bedrock-agentcore-demo/my_agent.py.  The
Strands agent runtime is an external collaborator; agentFn stands for
the composite agent(user_message).message, taking the user message and
returning the response recorded under "result". -/
def invoke (agentFn : Value → Value) (payload : Dict) : Dict :=
  let userMessage := (assocGet payload "prompt").getD (.str defaultPrompt)
  [("result", agentFn userMessage)]

/-! ### Association list lemmas -/

theorem assocGet_insert_self {α : Type} (d : List (String × α)) (k : String)
    (v : α) : assocGet (assocInsert d k v) k = some v := by
  induction d with
  | nil => simp [assocInsert, assocGet]
  | cons hd tl ih =>
      obtain ⟨k₂, v₂⟩ := hd
      by_cases h : k₂ = k <;> simp [assocInsert, assocGet, h, ih]

theorem assocHasKey_insert_self {α : Type} (d : List (String × α))
    (k : String) (v : α) : assocHasKey (assocInsert d k v) k = true := by
  simp [assocHasKey, assocGet_insert_self]

theorem assocInsert_length_of_hasKey {α : Type} (d : List (String × α))
    (k : String) (v : α) (h : assocHasKey d k = true) :
    (assocInsert d k v).length = d.length := by
  induction d with
  | nil => simp [assocHasKey, assocGet] at h
  | cons hd tl ih =>
      obtain ⟨k₂, v₂⟩ := hd
      by_cases hk : k₂ = k
      · simp [assocInsert, hk]
      · simp only [assocHasKey, assocGet, if_neg hk] at h
        simp [assocInsert, if_neg hk, List.length_cons, ih h]

/-! ### Template substitution lemmas -/

theorem pyStartswith_braces (n : String) :
    pyStartswith ("\x7b\x7b" ++ n ++ "\x7d\x7d") "\x7b\x7b" = true := by
  simp only [pyStartswith, String.data_append, List.isPrefixOf_iff_prefix,
    List.append_assoc]
  exact List.prefix_append _ _

theorem pyEndswith_braces (n : String) :
    pyEndswith ("\x7b\x7b" ++ n ++ "\x7d\x7d") "\x7d\x7d" = true := by
  simp only [pyEndswith, String.data_append, List.isSuffixOf_iff_suffix]
  exact List.suffix_append _ _

theorem pySlice2m2_braces (n : String) :
    pySlice2m2 ("\x7b\x7b" ++ n ++ "\x7d\x7d") = n := by
  have hdata : ("\x7b\x7b" ++ n ++ "\x7d\x7d").data =
      "\x7b\x7b".data ++ (n.data ++ "\x7d\x7d".data) := by
    simp [String.data_append]
  unfold pySlice2m2
  rw [hdata]
  rw [show ("\x7b\x7b".data ++ (n.data ++ "\x7d\x7d".data)).length - 4 =
      n.data.length by simp [List.length_append]]
  rw [show (2 : Nat) = "\x7b\x7b".data.length from rfl, List.drop_left,
    List.take_left]

theorem substituteValue_nil (v : Value) : substituteValue [] v = v := by
  cases v <;> simp [substituteValue, assocGet]

theorem replaceVariables_nil (params : Dict) :
    replaceVariables params [] = params := by
  induction params with
  | nil => rfl
  | cons hd tl ih =>
      show (hd.1, substituteValue [] hd.2) :: replaceVariables tl [] = hd :: tl
      rw [substituteValue_nil, ih]

theorem assocGet_replaceVariables (params context : Dict) (k : String) :
    assocGet (replaceVariables params context) k =
      (assocGet params k).map (substituteValue context) := by
  induction params with
  | nil => rfl
  | cons hd tl ih =>
      obtain ⟨k₂, v₂⟩ := hd
      by_cases h : k₂ = k
      · simp [replaceVariables, assocGet, h]
      · simpa [replaceVariables, assocGet, h] using ih

/-- Claim C5: template substitution replaces a parameter value with the
context value only when the value is a string bracketed by a double
opening brace and a double closing brace; a bound middle name is
replaced by its context value, an unbound one keeps the literal
placeholder, a string not of that shape and any non-string value pass
through unchanged, and substitution acts entrywise on the parameter
dict, preserving its keys. -/
theorem replace_variables_spec (context : Dict) :
    (∀ name w, assocGet context name = some w →
      substituteValue context (.str ("\x7b\x7b" ++ name ++ "\x7d\x7d")) = w)
    ∧ (∀ name, assocGet context name = none →
      substituteValue context (.str ("\x7b\x7b" ++ name ++ "\x7d\x7d")) =
        .str ("\x7b\x7b" ++ name ++ "\x7d\x7d"))
    ∧ (∀ s, (pyStartswith s "\x7b\x7b" && pyEndswith s "\x7d\x7d") = false →
      substituteValue context (.str s) = .str s)
    ∧ (∀ v, (∀ s, v ≠ .str s) → substituteValue context v = v)
    ∧ (∀ params k, assocGet (replaceVariables params context) k =
        (assocGet params k).map (substituteValue context)) := by
  refine ⟨?_, ?_, ?_, ?_, ?_⟩
  · intro name w h
    simp [substituteValue, pyStartswith_braces, pyEndswith_braces,
      pySlice2m2_braces, h]
  · intro name h
    simp [substituteValue, pyStartswith_braces, pyEndswith_braces,
      pySlice2m2_braces, h]
  · intro s h
    simp [substituteValue, h]
  · intro v h
    cases v with
    | str s => exact absurd rfl (h s)
    | _ => rfl
  · exact fun params k => assocGet_replaceVariables params context k

/-- Witness for C5: in the context binding x to 5, the exact
placeholder for x becomes 5, the placeholder for the unbound y stays
literal, a string merely containing a placeholder passes through, and
a non-string passes through. -/
theorem replace_variables_spec_witness :
    substituteValue [("x", Value.int 5)] (.str "\x7b\x7bx\x7d\x7d") =
      Value.int 5
    ∧ substituteValue [("x", Value.int 5)] (.str "\x7b\x7by\x7d\x7d") =
      .str "\x7b\x7by\x7d\x7d"
    ∧ substituteValue [("x", Value.int 5)] (.str "a \x7b\x7bx\x7d\x7d b") =
      .str "a \x7b\x7bx\x7d\x7d b"
    ∧ substituteValue [("x", Value.int 5)] (.arr []) = .arr [] := by
  refine ⟨?_, ?_, ?_, ?_⟩
  · simpa using (replace_variables_spec [("x", Value.int 5)]).1 "x"
      (Value.int 5) rfl
  · simpa using (replace_variables_spec [("x", Value.int 5)]).2.1 "y" rfl
  · exact (replace_variables_spec [("x", Value.int 5)]).2.2.1
      "a \x7b\x7bx\x7d\x7d b" (by decide)
  · exact (replace_variables_spec [("x", Value.int 5)]).2.2.2.1 (.arr [])
      (fun s h => Value.noConfusion h)

/-- Claim C1: the step executor dispatches on exactly the five action
kinds http_request, set_variable, get_variable, delay and log, and for
a step whose action is any other string it returns the dictionary
mapping "error" to "Unknown action: <action>" instead of raising. -/
theorem execute_step_dispatch :
    (∀ store params, executeStepAction store "http_request" params =
      .ok (store, httpRequest params))
    ∧ (∀ store params, executeStepAction store "set_variable" params =
      setVariable store params)
    ∧ (∀ store params, executeStepAction store "get_variable" params =
      (getVariable store params).map fun v => (store, v))
    ∧ (∀ store params, executeStepAction store "delay" params =
      .ok (store, delayStep params))
    ∧ (∀ store params, executeStepAction store "log" params =
      .ok (store, logStep params))
    ∧ (∀ store step context a, step.action = some a →
      a ∉ ["http_request", "set_variable", "get_variable", "delay", "log"] →
      executeStep store step context =
        .ok (store, .obj [("error", .str ("Unknown action: " ++ a))])) := by
  refine ⟨fun _ _ => rfl, fun _ _ => rfl, fun _ _ => rfl, fun _ _ => rfl,
    fun _ _ => rfl, ?_⟩
  intro store step context a ha hmem
  simp only [List.mem_cons, List.not_mem_nil, or_false] at hmem
  push_neg at hmem
  obtain ⟨h₁, h₂, h₃, h₄, h₅⟩ := hmem
  simp [executeStep, ha, executeStepAction, h₁, h₂, h₃, h₄, h₅]

/-- Witness for C1: the action frobnicate is not one of the five and
yields the error dictionary. -/
theorem execute_step_dispatch_witness :
    executeStep [] ⟨some "frobnicate", [], none, none⟩ [] =
      .ok ([], .obj [("error", .str "Unknown action: frobnicate")]) := by
  simpa using execute_step_dispatch.2.2.2.2.2 [] ⟨some "frobnicate", [], none, none⟩
    [] "frobnicate" rfl (by decide)

/-- Claim C6: the variable store satisfies the round-trip law — a
set_variable step with key k and value v followed by a get_variable
step with key k returns v, and a get_variable step for a key that was
never set returns None. -/
theorem variable_store_roundtrip :
    (∀ store k v,
      executeStep store ⟨some "set_variable",
          [("key", .str k), ("value", v)], none, none⟩ [] =
        .ok (assocInsert store k v, .obj [("key", .str k), ("value", v)])
      ∧ executeStep (assocInsert store k v) ⟨some "get_variable",
          [("key", .str k)], none, none⟩ [] =
        .ok (assocInsert store k v, v))
    ∧ (∀ store k, assocGet store k = none →
      executeStep store ⟨some "get_variable", [("key", .str k)], none, none⟩
        [] = .ok (store, .null)) := by
  constructor
  · intro store k v
    constructor
    · show executeStepAction store "set_variable"
        (replaceVariables [("key", .str k), ("value", v)] []) = _
      rw [replaceVariables_nil]
      simp [executeStepAction, setVariable, assocGet]
    · show executeStepAction (assocInsert store k v) "get_variable"
        (replaceVariables [("key", .str k)] []) = _
      rw [replaceVariables_nil]
      simp [executeStepAction, getVariable, assocGet, assocGet_insert_self,
        Except.map]
  · intro store k h
    show executeStepAction store "get_variable"
      (replaceVariables [("key", .str k)] []) = _
    rw [replaceVariables_nil]
    simp [executeStepAction, getVariable, assocGet, h, Except.map]

/-- Witness for C6: setting x to 7 in the empty store and reading it
back returns 7; reading the never-set key y from the empty store
returns None. -/
theorem variable_store_roundtrip_witness :
    executeStep [] ⟨some "set_variable",
        [("key", .str "x"), ("value", .int 7)], none, none⟩ [] =
      .ok ([("x", Value.int 7)], .obj [("key", .str "x"), ("value", .int 7)])
    ∧ executeStep [("x", Value.int 7)] ⟨some "get_variable",
        [("key", .str "x")], none, none⟩ [] =
      .ok ([("x", Value.int 7)], .int 7)
    ∧ executeStep [] ⟨some "get_variable", [("key", .str "y")], none, none⟩
        [] = .ok ([], .null) := by
  refine ⟨?_, ?_, ?_⟩
  · simpa using (variable_store_roundtrip.1 [] "x" (.int 7)).1
  · simpa using (variable_store_roundtrip.1 [] "x" (.int 7)).2
  · exact variable_store_roundtrip.2 [] "y" rfl

/-- Claim C9: execute_workflow on an unknown or disabled workflow id
returns the error dictionary and leaves the whole database — in
particular the executions table — unchanged. -/
theorem execute_workflow_not_found (db : AutomationDB)
    (nowRepr startedAt completedAt wid : String) (context : Dict)
    (h : assocGet db.workflows wid = none ∨
      ∃ wf, assocGet db.workflows wid = some wf ∧ wf.enabled = false) :
    executeWorkflow db nowRepr startedAt completedAt wid context =
      (db, .obj [("error", .str "Workflow not found or disabled")]) := by
  have hl : wfLookup db wid = none := by
    rcases h with h | ⟨wf, h₁, h₂⟩
    · simp [wfLookup, h]
    · simp [wfLookup, h₁, h₂]
  simp [executeWorkflow, hl]

/-- Witness for C9: a lookup in the empty database yields the error
dictionary and no execution record. -/
theorem execute_workflow_not_found_witness :
    executeWorkflow ⟨[], [], []⟩ "t" "t" "t" "w" [] =
      (⟨[], [], []⟩, .obj [("error", .str "Workflow not found or disabled")]) := by
  exact execute_workflow_not_found ⟨[], [], []⟩ "t" "t" "t" "w" []
    (Or.inl rfl)

/-- Claim C10: create_workflow derives the workflow id as the MD5 hex
digest of the name, so two calls with the same name return the same
workflow id, and the second call replaces the row written by the first
instead of adding one — the workflows table does not grow. -/
theorem create_workflow_md5_id (db : AutomationDB) (now₁ now₂ : String)
    (args₁ args₂ : CreateArgs) (hname : args₂.name = args₁.name) :
    objGet (createWorkflow db now₁ args₁).2 "workflow_id" =
      some (.str (md5Hex args₁.name))
    ∧ objGet (createWorkflow (createWorkflow db now₁ args₁).1 now₂ args₂).2
        "workflow_id" = some (.str (md5Hex args₁.name))
    ∧ ((createWorkflow (createWorkflow db now₁ args₁).1 now₂ args₂).1).workflows.length
      = ((createWorkflow db now₁ args₁).1).workflows.length := by
  refine ⟨?_, ?_, ?_⟩
  · simp [createWorkflow, objGet, assocGet]
  · simp [createWorkflow, objGet, assocGet, hname]
  · show (assocInsert (assocInsert db.workflows (md5Hex args₁.name) _)
        (md5Hex args₂.name) _).length = _
    rw [hname]
    exact assocInsert_length_of_hasKey _ _ _
      (assocHasKey_insert_self db.workflows (md5Hex args₁.name) _)

/-- Witness for C10: creating the workflow named a twice in the empty
database yields the MD5 id of a both times and one stored row. -/
theorem create_workflow_md5_id_witness :
    objGet (createWorkflow ⟨[], [], []⟩ "t" ⟨"a", none, "manual", none,
      []⟩).2 "workflow_id" = some (.str (md5Hex "a"))
    ∧ objGet (createWorkflow (createWorkflow ⟨[], [], []⟩ "t" ⟨"a", none,
        "manual", none, []⟩).1 "u" ⟨"a", none, "manual", none, []⟩).2
      "workflow_id" = some (.str (md5Hex "a"))
    ∧ ((createWorkflow (createWorkflow ⟨[], [], []⟩ "t" ⟨"a", none,
        "manual", none, []⟩).1 "u" ⟨"a", none, "manual", none,
        []⟩).1).workflows.length =
      ((createWorkflow ⟨[], [], []⟩ "t" ⟨"a", none, "manual", none,
        []⟩).1).workflows.length := by
  exact create_workflow_md5_id ⟨[], [], []⟩ "t" "u"
    ⟨"a", none, "manual", none, []⟩ ⟨"a", none, "manual", none, []⟩ rfl

/-- Claim C7: the agent entrypoint returns a dictionary whose "result"
key holds the agent runtime response to the payload prompt; when the
payload has no "prompt" key the default prompt is used in its
place. -/
theorem invoke_result (agentFn : Value → Value) (payload : Dict) :
    assocGet (invoke agentFn payload) "result" =
      some (agentFn ((assocGet payload "prompt").getD (.str defaultPrompt)))
    ∧ (assocGet payload "prompt" = none →
      invoke agentFn payload = [("result", agentFn (.str defaultPrompt))]) := by
  constructor
  · simp [invoke, assocGet]
  · intro h
    simp [invoke, h]

/-- Witness for C7: with an echoing runtime and an empty payload, the
entry point answers the default prompt. -/
theorem invoke_result_witness :
    assocGet (invoke (fun v => v) []) "result" =
      some (Value.str defaultPrompt)
    ∧ invoke (fun v => v) [] = [("result", .str defaultPrompt)] := by
  exact ⟨(invoke_result (fun v => v) []).1,
    (invoke_result (fun v => v) []).2 rfl⟩

/-! ### The step loop visits the step list in order, at most once each -/

theorem runSteps_results_ordered :
    ∀ (steps : List Step) (store : VarStore) (context : Dict) (idx : Nat),
      ((runSteps store context steps idx).2.2.results).length ≤ steps.length
      ∧ ∀ j entry,
          ((runSteps store context steps idx).2.2.results)[j]? = some entry →
          ∃ step act result, steps[j]? = some step ∧ step.action = some act ∧
            entry = stepEntry (idx + j) act result := by
  intro steps
  induction steps with
  | nil =>
      intro store context idx
      refine ⟨Nat.le_refl 0, ?_⟩
      intro j entry h
      simp [runSteps, RunOutcome.results] at h
  | cons step rest ih =>
      intro store context idx
      rcases hact : step.action with _ | act
      · constructor
        · simp [runSteps, hact, RunOutcome.results]
        · intro j entry h
          simp [runSteps, hact, RunOutcome.results] at h
      · rcases hexec : executeStepAction store act
            (replaceVariables step.params context) with e | ⟨store₁, result⟩
        · constructor
          · simp [runSteps, hact, hexec, RunOutcome.results]
          · intro j entry h
            simp [runSteps, hact, hexec, RunOutcome.results] at h
        · rcases hcond : checkCondition step.condition
              (updateContext context step result) with e | b
          · constructor
            · simp [runSteps, hact, hexec, hcond, RunOutcome.results]
            · intro j entry h
              simp only [runSteps, hact, hexec, hcond,
                RunOutcome.results] at h
              rcases j with _ | j
              · rw [List.getElem?_cons_zero] at h
                exact ⟨step, act, result, List.getElem?_cons_zero, hact,
                  (Option.some_inj.mp h).symm⟩
              · rw [List.getElem?_cons_succ] at h
                simp at h
          · cases b
            · constructor
              · simp [runSteps, hact, hexec, hcond, RunOutcome.results]
              · intro j entry h
                simp only [runSteps, hact, hexec, hcond,
                  RunOutcome.results] at h
                rcases j with _ | j
                · rw [List.getElem?_cons_zero] at h
                  exact ⟨step, act, result, List.getElem?_cons_zero, hact,
                    (Option.some_inj.mp h).symm⟩
                · rw [List.getElem?_cons_succ] at h
                  simp at h
            · have ihh := ih store₁ (updateContext context step result)
                (idx + 1)
              rcases hrec : runSteps store₁ (updateContext context step result)
                  rest (idx + 1) with ⟨store₂, context₂, out⟩
              rw [hrec] at ihh
              have hres : ((runSteps store context (step :: rest)
                  idx).2.2.results) =
                  stepEntry idx act result :: out.results := by
                cases out <;>
                  simp [runSteps, hact, hexec, hcond, hrec, RunOutcome.results]
              constructor
              · rw [hres]
                simpa [List.length_cons] using Nat.succ_le_succ ihh.1
              · intro j entry h
                rw [hres] at h
                rcases j with _ | j
                · rw [List.getElem?_cons_zero] at h
                  exact ⟨step, act, result, List.getElem?_cons_zero, hact,
                    (Option.some_inj.mp h).symm⟩
                · rw [List.getElem?_cons_succ] at h
                  obtain ⟨step₂, act₂, result₂, h₁, h₂, h₃⟩ := ihh.2 j entry h
                  refine ⟨step₂, act₂, result₂, ?_, h₂, ?_⟩
                  · rw [List.getElem?_cons_succ]
                    exact h₁
                  · rw [h₃]
                    have : idx + 1 + j = idx + (j + 1) := by omega
                    rw [this]

/-- Claim C2: the step loop of execute_workflow visits the step list
in order, records at most one entry per step (the j-th recorded entry
comes from the j-th step and carries step number idx + j + 1), always
terminates (runSteps and executeWorkflow are total functions), and the
steps_executed count reported by execute_workflow never exceeds the
number of steps of the workflow. -/
theorem execute_workflow_linear (db : AutomationDB)
    (nowRepr startedAt completedAt wid : String) (context : Dict)
    (wf : Workflow) (h : wfLookup db wid = some wf) :
    (∀ steps store ctx idx,
      ((runSteps store ctx steps idx).2.2.results).length ≤ steps.length
      ∧ ∀ j entry,
          ((runSteps store ctx steps idx).2.2.results)[j]? = some entry →
          ∃ step act result, steps[j]? = some step ∧ step.action = some act ∧
            entry = stepEntry (idx + j) act result)
    ∧ ∃ n : Nat,
        objGet (executeWorkflow db nowRepr startedAt completedAt wid
          context).2 "steps_executed" = some (.int n)
        ∧ n ≤ wf.steps.length := by
  constructor
  · exact fun steps store ctx idx => runSteps_results_ordered steps store ctx idx
  · have hord := runSteps_results_ordered wf.steps db.vars context 0
    rcases hrun : runSteps db.vars context wf.steps 0
      with ⟨store₂, context₂, out⟩
    rw [hrun] at hord
    cases out with
    | completed results =>
        refine ⟨results.length, ?_, ?_⟩
        · simp [executeWorkflow, h, hrun, objGet, assocGet]
        · simpa [RunOutcome.results] using hord.1
    | failed results e =>
        refine ⟨results.length, ?_, ?_⟩
        · simp [executeWorkflow, h, hrun, objGet, assocGet]
        · simpa [RunOutcome.results] using hord.1

/-- Witness for C2: a one-step workflow reports one executed step. -/
theorem execute_workflow_linear_witness :
    wfLookup ⟨[("w", ⟨"n", "", "manual", .obj [], [⟨some "log", [], none,
        none⟩], true, "t"⟩)], [], []⟩ "w" =
      some ⟨"n", "", "manual", .obj [], [⟨some "log", [], none, none⟩],
        true, "t"⟩
    ∧ ∃ n : Nat,
        objGet (executeWorkflow ⟨[("w", ⟨"n", "", "manual", .obj [],
            [⟨some "log", [], none, none⟩], true, "t"⟩)], [], []⟩
          "t" "t" "t" "w" []).2 "steps_executed" = some (.int n)
        ∧ n ≤ 1 := by
  exact ⟨rfl, (execute_workflow_linear ⟨[("w", ⟨"n", "", "manual", .obj [],
    [⟨some "log", [], none, none⟩], true, "t"⟩)], [], []⟩
    "t" "t" "t" "w" [] ⟨"n", "", "manual", .obj [],
    [⟨some "log", [], none, none⟩], true, "t"⟩ rfl).2⟩

/-- Claim C4: an exception raised while executing a step is caught by
execute_workflow — the function is total and returns the failed
dictionary carrying status failed and the stringified exception — and
call_tool with an unregistered tool name returns an error dictionary
instead of raising. -/
theorem workflow_error_handling :
    (∀ (db : AutomationDB) (nowRepr startedAt completedAt wid : String)
      (context : Dict) (wf : Workflow) (store₂ : VarStore) (ctx₂ : Dict)
      (results : List Value) (e : String),
      wfLookup db wid = some wf →
      runSteps db.vars context wf.steps 0 = (store₂, ctx₂, .failed results e) →
      (executeWorkflow db nowRepr startedAt completedAt wid context).2 =
        .obj [("execution_id", .str (md5Hex (wid ++ nowRepr))),
              ("status", .str "failed"), ("error", .str e),
              ("steps_executed", .int results.length)])
    ∧ (∀ (tools : List (String × (Dict → Value))) (name : String)
      (arguments : Dict), assocGet tools name = none →
      callTool tools name arguments =
        .obj [("error", .str ("Unknown tool: " ++ name))]) := by
  constructor
  · intro db nowRepr startedAt completedAt wid context wf store₂ ctx₂
      results e h hrun
    simp [executeWorkflow, h, hrun]
  · intro tools name arguments h
    simp [callTool, h]

/-- Witness for C4: a set_variable step without a key raises KeyError,
execute_workflow reports the failure, and an unregistered tool yields
the error dictionary. -/
theorem workflow_error_handling_witness :
    wfLookup ⟨[("w", ⟨"n", "", "manual", .obj [],
        [⟨some "set_variable", [], none, none⟩], true, "t"⟩)], [], []⟩ "w" =
      some ⟨"n", "", "manual", .obj [],
        [⟨some "set_variable", [], none, none⟩], true, "t"⟩
    ∧ runSteps [] [] [⟨some "set_variable", [], none, none⟩] 0 =
      ([], [], .failed [] (keyError "key"))
    ∧ (executeWorkflow ⟨[("w", ⟨"n", "", "manual", .obj [],
        [⟨some "set_variable", [], none, none⟩], true, "t"⟩)], [], []⟩
        "t" "t" "t" "w" []).2 =
      .obj [("execution_id", .str (md5Hex ("w" ++ "t"))),
            ("status", .str "failed"), ("error", .str (keyError "key")),
            ("steps_executed", .int 0)]
    ∧ callTool [] "missing_tool" [] =
      .obj [("error", .str "Unknown tool: missing_tool")] := by
  refine ⟨rfl, rfl, ?_, ?_⟩
  · exact workflow_error_handling.1 ⟨[("w", ⟨"n", "", "manual", .obj [],
      [⟨some "set_variable", [], none, none⟩], true, "t"⟩)], [], []⟩
      "t" "t" "t" "w" [] ⟨"n", "", "manual", .obj [],
      [⟨some "set_variable", [], none, none⟩], true, "t"⟩ [] []
      [] (keyError "key") rfl rfl
  · exact workflow_error_handling.2 [] "missing_tool" [] rfl

/-- Claim C8: a condition never gates its own step — it is evaluated
only after the step has executed.  A missing condition (and an empty
one) evaluates true; an unrecognized or missing operator evaluates
true; a condition naming a variable absent from the context evaluates
false; and when the condition of a step evaluates false, that step is
still recorded, every later step is skipped, and the run — hence the
execution reported by execute_workflow — still completes with status
completed. -/
theorem condition_semantics :
    (∀ context, checkCondition none context = .ok true)
    ∧ (∀ context, checkCondition (some []) context = .ok true)
    ∧ (∀ (c : Dict) (context : Dict) (v : String) (ctxValue : Value),
      c.isEmpty = false →
      assocGet c "variable" = some (.str v) →
      assocGet context v = some ctxValue →
      recognizedOp (assocGet c "operator") = false →
      checkCondition (some c) context = .ok true)
    ∧ (∀ (c : Dict) (context : Dict) (v : String),
      c.isEmpty = false →
      assocGet c "variable" = some (.str v) →
      assocGet context v = none →
      checkCondition (some c) context = .ok false)
    ∧ (∀ (store : VarStore) (context : Dict) (idx : Nat) (step : Step)
      (rest : List Step) (act : String) (store₁ : VarStore) (result : Value),
      step.action = some act →
      executeStepAction store act (replaceVariables step.params context) =
        .ok (store₁, result) →
      checkCondition step.condition (updateContext context step result) =
        .ok false →
      runSteps store context (step :: rest) idx =
        (store₁, updateContext context step result,
         .completed [stepEntry idx act result]))
    ∧ (∀ (db : AutomationDB) (nowRepr startedAt completedAt wid : String)
      (context : Dict) (wf : Workflow) (store₂ : VarStore) (ctx₂ : Dict)
      (results : List Value),
      wfLookup db wid = some wf →
      runSteps db.vars context wf.steps 0 = (store₂, ctx₂, .completed results) →
      objGet (executeWorkflow db nowRepr startedAt completedAt wid
        context).2 "status" = some (.str "completed")) := by
  refine ⟨fun _ => rfl, fun _ => rfl, ?_, ?_, ?_, ?_⟩
  · intro c context v ctxValue hempty hvar hctx hop
    simp only [checkCondition, hempty, Bool.false_eq_true, if_false, hvar,
      hctx]
    split
    all_goals first
      | rfl
      | (rename_i heq
         rw [heq] at hop
         simp [recognizedOp] at hop)
  · intro c context v hempty hvar hctx
    simp [checkCondition, hempty, hvar, hctx]
  · intro store context idx step rest act store₁ result hact hexec hcond
    simp only [runSteps, hact, hexec, hcond]
  · intro db nowRepr startedAt completedAt wid context wf store₂ ctx₂
      results h hrun
    simp [executeWorkflow, h, hrun, objGet, assocGet]

/-- Witness for C8: an unrecognized operator with a bound variable
gives true; an absent variable gives false; a false condition records
its own step, skips the remaining step and still completes; and the
workflow execution reports status completed. -/
theorem condition_semantics_witness :
    checkCondition (some [("variable", .str "x"), ("operator", .str "frob")])
      [("x", .int 1)] = .ok true
    ∧ checkCondition (some [("variable", .str "m")]) [] = .ok false
    ∧ runSteps [] [] [⟨some "log", [], none, some [("variable", .str "m")]⟩,
        ⟨some "log", [], none, none⟩] 0 =
      ([], [], .completed [stepEntry 0 "log" (.obj [("logged", .null)])])
    ∧ objGet (executeWorkflow ⟨[("w", ⟨"n", "", "manual", .obj [], [], true,
        "t"⟩)], [], []⟩ "t" "t" "t" "w" []).2 "status" =
      some (.str "completed") := by
  refine ⟨?_, ?_, ?_, ?_⟩
  · exact condition_semantics.2.2.1 [("variable", .str "x"),
      ("operator", .str "frob")] [("x", .int 1)] "x" (.int 1) rfl rfl rfl rfl
  · exact condition_semantics.2.2.2.1 [("variable", .str "m")] [] "m"
      rfl rfl rfl
  · exact condition_semantics.2.2.2.2.1 [] [] 0
      ⟨some "log", [], none, some [("variable", .str "m")]⟩
      [⟨some "log", [], none, none⟩] "log" [] (.obj [("logged", .null)])
      rfl rfl rfl
  · exact condition_semantics.2.2.2.2.2 ⟨[("w", ⟨"n", "", "manual", .obj [],
      [], true, "t"⟩)], [], []⟩ "t" "t" "t" "w" []
      ⟨"n", "", "manual", .obj [], [], true, "t"⟩ [] [] [] rfl rfl

/-- Counterexample to Claim C3 as stated: ping is not among the five
listed methods, yet handle_request answers it with a successful
JSON-RPC result and no error member. -/
theorem handle_request_ping_counterexample :
    ("ping" ∉ ["initialize", "tools/list", "tools/call", "resources/list",
      "resources/read"])
    ∧ objGet (handleRequest ⟨"srv", "1.0.0", [], [], [], 0, 0⟩
        ⟨some (.str "ping"), [], some (.int 1)⟩).2 "result" = some (.obj [])
    ∧ objGet (handleRequest ⟨"srv", "1.0.0", [], [], [], 0, 0⟩
        ⟨some (.str "ping"), [], some (.int 1)⟩).2 "error" = none := by
  exact ⟨by decide, rfl, rfl⟩

/-- Claim C3 (amended): the request handler returns a successful
JSON-RPC result exactly for the six methods initialize, tools/list,
tools/call, resources/list, resources/read and ping; for every request
whose method is any other string it returns a JSON-RPC error response
with code -32603 rather than a result. -/
theorem handle_request_method_surface :
    (∀ (s : McpServer) (req : RpcRequest) (m : String),
      req.method = some (.str m) →
      m ∉ ["initialize", "tools/list", "tools/call", "resources/list",
           "resources/read", "ping"] →
      (handleRequest s req).2 =
        .obj [("jsonrpc", .str "2.0"), ("id", req.id.getD .null),
              ("error", .obj [("code", .int (-32603)),
                              ("message", .str ("Unknown method: " ++ m))])])
    ∧ (∀ (s : McpServer) (req : RpcRequest),
      req.method = some (.str "initialize") →
      (handleRequest s req).2 =
        .obj [("jsonrpc", .str "2.0"), ("id", req.id.getD .null),
              ("result", handleInitialize
                { s with request_count := s.request_count + 1 })])
    ∧ (∀ (s : McpServer) (req : RpcRequest),
      req.method = some (.str "tools/list") →
      (handleRequest s req).2 =
        .obj [("jsonrpc", .str "2.0"), ("id", req.id.getD .null),
              ("result", handleToolsList
                { s with request_count := s.request_count + 1 })])
    ∧ (∀ (s : McpServer) (req : RpcRequest),
      req.method = some (.str "resources/list") →
      (handleRequest s req).2 =
        .obj [("jsonrpc", .str "2.0"), ("id", req.id.getD .null),
              ("result", handleResourcesList
                { s with request_count := s.request_count + 1 })])
    ∧ (∀ (s : McpServer) (req : RpcRequest),
      req.method = some (.str "ping") →
      (handleRequest s req).2 =
        .obj [("jsonrpc", .str "2.0"), ("id", req.id.getD .null),
              ("result", .obj [])])
    ∧ (∀ (s : McpServer) (req : RpcRequest) (n : String) (tool : McpTool)
      (r : Value),
      req.method = some (.str "tools/call") →
      assocGet req.params "name" = some (.str n) →
      assocGet s.tools n = some tool →
      tool.handler ((assocGet req.params "arguments").getD (.obj [])) =
        .ok r →
      (handleRequest s req).2 =
        .obj [("jsonrpc", .str "2.0"), ("id", req.id.getD .null),
              ("result", .obj [("content", .arr [.obj
                [("type", .str "text"),
                 ("text", .str (jsonDumps r))]])])])
    ∧ (∀ (s : McpServer) (req : RpcRequest) (u : String)
      (res : McpResource) (content : String),
      req.method = some (.str "resources/read") →
      assocGet req.params "uri" = some (.str u) →
      assocGet s.resources u = some res →
      res.handler = .ok content →
      (handleRequest s req).2 =
        .obj [("jsonrpc", .str "2.0"), ("id", req.id.getD .null),
              ("result", .obj [("contents", .arr [.obj
                [("uri", .str u),
                 ("mimeType", .str res.mimeType),
                 ("text", .str content)]])])]) := by
  refine ⟨?_, ?_, ?_, ?_, ?_, ?_, ?_⟩
  · intro s req m hm hmem
    have hd : dispatchMethod { s with request_count := s.request_count + 1 }
        req = ({ s with request_count := s.request_count + 1 },
        .error ("Unknown method: " ++ m)) := by
      simp only [dispatchMethod, hm]
      split
      all_goals first
        | rfl
        | (rename_i heq
           injection heq with heq₂
           injection heq₂ with heq₃
           rw [heq₃] at hmem
           simp at hmem)
    simp only [handleRequest, hd]
  · intro s req hm
    simp only [handleRequest, dispatchMethod, hm]
  · intro s req hm
    simp only [handleRequest, dispatchMethod, hm]
  · intro s req hm
    simp only [handleRequest, dispatchMethod, hm]
  · intro s req hm
    simp only [handleRequest, dispatchMethod, hm]
  · intro s req n tool r hm hname htool hh
    simp only [handleRequest, dispatchMethod, hm, handleToolsCall, hname,
      htool, hh]
  · intro s req u res content hm huri hres hh
    simp only [handleRequest, dispatchMethod, hm, handleResourcesRead, huri,
      hres, hh, pyStr, Option.getD]

/-- Witness for C3 (amended): each of the six methods answered with a
result on a concrete server, and a non-method string answered with the
code -32603 error. -/
theorem handle_request_method_surface_witness :
    (handleRequest ⟨"srv", "1.0.0", [], [], [], 0, 0⟩
        ⟨some (.str "bogus"), [], none⟩).2 =
      .obj [("jsonrpc", .str "2.0"), ("id", .null),
            ("error", .obj [("code", .int (-32603)),
                            ("message", .str "Unknown method: bogus")])]
    ∧ (handleRequest ⟨"srv", "1.0.0", [], [], [], 0, 0⟩
        ⟨some (.str "initialize"), [], none⟩).2 =
      .obj [("jsonrpc", .str "2.0"), ("id", .null),
            ("result", handleInitialize ⟨"srv", "1.0.0", [], [], [], 1, 0⟩)]
    ∧ (handleRequest ⟨"srv", "1.0.0", [], [], [], 0, 0⟩
        ⟨some (.str "tools/list"), [], none⟩).2 =
      .obj [("jsonrpc", .str "2.0"), ("id", .null),
            ("result", handleToolsList ⟨"srv", "1.0.0", [], [], [], 1, 0⟩)]
    ∧ (handleRequest ⟨"srv", "1.0.0", [], [], [], 0, 0⟩
        ⟨some (.str "resources/list"), [], none⟩).2 =
      .obj [("jsonrpc", .str "2.0"), ("id", .null),
            ("result", handleResourcesList
              ⟨"srv", "1.0.0", [], [], [], 1, 0⟩)]
    ∧ (handleRequest ⟨"srv", "1.0.0", [], [], [], 0, 0⟩
        ⟨some (.str "ping"), [], none⟩).2 =
      .obj [("jsonrpc", .str "2.0"), ("id", .null), ("result", .obj [])]
    ∧ (handleRequest ⟨"srv", "1.0.0",
        [("t", ⟨"d", .obj [], fun _ => .ok .null⟩)], [], [], 0, 0⟩
        ⟨some (.str "tools/call"), [("name", .str "t")], none⟩).2 =
      .obj [("jsonrpc", .str "2.0"), ("id", .null),
            ("result", .obj [("content", .arr [.obj
              [("type", .str "text"),
               ("text", .str (jsonDumps .null))]])])]
    ∧ (handleRequest ⟨"srv", "1.0.0", [],
        [("file://x", ⟨"r", "d", "text/plain", .ok "hello"⟩)], [], 0, 0⟩
        ⟨some (.str "resources/read"), [("uri", .str "file://x")], none⟩).2 =
      .obj [("jsonrpc", .str "2.0"), ("id", .null),
            ("result", .obj [("contents", .arr [.obj
              [("uri", .str "file://x"),
               ("mimeType", .str "text/plain"),
               ("text", .str "hello")]])])] := by
  refine ⟨?_, ?_, ?_, ?_, ?_, ?_, ?_⟩
  · exact handle_request_method_surface.1 ⟨"srv", "1.0.0", [], [], [], 0, 0⟩
      ⟨some (.str "bogus"), [], none⟩ "bogus" rfl (by decide)
  · exact handle_request_method_surface.2.1 ⟨"srv", "1.0.0", [], [], [], 0, 0⟩
      ⟨some (.str "initialize"), [], none⟩ rfl
  · exact handle_request_method_surface.2.2.1
      ⟨"srv", "1.0.0", [], [], [], 0, 0⟩
      ⟨some (.str "tools/list"), [], none⟩ rfl
  · exact handle_request_method_surface.2.2.2.1
      ⟨"srv", "1.0.0", [], [], [], 0, 0⟩
      ⟨some (.str "resources/list"), [], none⟩ rfl
  · exact handle_request_method_surface.2.2.2.2.1
      ⟨"srv", "1.0.0", [], [], [], 0, 0⟩
      ⟨some (.str "ping"), [], none⟩ rfl
  · exact handle_request_method_surface.2.2.2.2.2.1
      ⟨"srv", "1.0.0", [("t", ⟨"d", .obj [], fun _ => .ok .null⟩)], [], [],
        0, 0⟩
      ⟨some (.str "tools/call"), [("name", .str "t")], none⟩ "t"
      ⟨"d", .obj [], fun _ => .ok .null⟩ .null rfl rfl rfl rfl
  · exact handle_request_method_surface.2.2.2.2.2.2
      ⟨"srv", "1.0.0", [],
        [("file://x", ⟨"r", "d", "text/plain", .ok "hello"⟩)], [], 0, 0⟩
      ⟨some (.str "resources/read"), [("uri", .str "file://x")], none⟩
      "file://x" ⟨"r", "d", "text/plain", .ok "hello"⟩ "hello"
      rfl rfl rfl rfl

end AgenticPlayground
